import Mathlib

/-!
Shallow embedding of the DS1307 RTC driver (src/ds1307.c, src/ds1307.h).

The driver talks to the DS1307 real-time clock over an I2C bus through two
HAL primitives, `HAL_I2C_Mem_Write` and `HAL_I2C_Mem_Read`.  We model the
bus transport as an oracle (`Bus`): a register memory seen by reads plus
status functions for read and write transactions.  Every embedded driver
function additionally returns the list of bus transactions it performed
(`List BusOp`), in order, so that claims about transaction counts and
ordering can be stated.

Machine bytes (`uint8_t`) are modelled as `Nat`; wherever a C expression can
exceed a byte before being stored back into a `uint8_t`, the truncation
`% 256` is made explicit.
-/

/-- Status type `DS1307_Status_t` from ds1307.h: status codes of every driver operation. -/
inductive DS1307_Status_t : Type where
  | DS1307_OK
  | DS1307_ERROR
  | DS1307_BUSY
  | DS1307_TIMEOUT_ERR
  | DS1307_NOT_FOUND
  | DS1307_DATA_SIZE_ERROR
deriving DecidableEq, Repr

open DS1307_Status_t

/-- A bus transaction as issued by the HAL primitives: device address,
register (memory) address, and the data written resp. the length requested. -/
inductive BusOp : Type where
  | memWrite (dev : Nat) (reg : Nat) (data : List Nat)
  | memRead (dev : Nat) (reg : Nat) (len : Nat)
deriving DecidableEq, Repr

/-- The registers a transaction addresses on the peripheral: an I2C memory
transaction of length `n` starting at register `reg` touches
`reg, reg+1, ..., reg+n-1` (the peripheral auto-increments its pointer). -/
def BusOp.regsTouched : BusOp → List Nat
  | .memWrite _ reg data => (List.range data.length).map (fun i => reg + i)
  | .memRead _ reg len => (List.range len).map (fun i => reg + i)

/-- The bus-transport collaborator (the external I2C engine plus the
peripheral), modelled as a deterministic oracle: `mem` is the register
content a read transfers, `readStatus reg len` / `writeStatus reg data` are
the statuses the transport reports for the corresponding transaction. -/
structure Bus : Type where
  mem : Nat → Nat
  readStatus : Nat → Nat → DS1307_Status_t
  writeStatus : Nat → List Nat → DS1307_Status_t

/-- Model of `HAL_I2C_Mem_Write`: one bus-write transaction of the first `Size` bytes
of `pData` at register `MemAddress`.  Returns the transport's status and the
singleton transaction trace. -/
def HAL_I2C_Mem_Write (bus : Bus) (DevAddress MemAddress : Nat) (pData : List Nat)
    (Size : Nat) : DS1307_Status_t × List BusOp :=
  (bus.writeStatus MemAddress (pData.take Size),
   [BusOp.memWrite DevAddress MemAddress (pData.take Size)])

/-- Model of `HAL_I2C_Mem_Read`: one bus-read transaction of `Size` bytes starting at
register `MemAddress`.  Returns the transport's status, the `Size` bytes
transferred into the caller's buffer, and the singleton transaction trace. -/
def HAL_I2C_Mem_Read (bus : Bus) (DevAddress MemAddress : Nat) (Size : Nat) :
    DS1307_Status_t × List Nat × List BusOp :=
  (bus.readStatus MemAddress Size,
   (List.range Size).map (fun i => bus.mem (MemAddress + i)),
   [BusOp.memRead DevAddress MemAddress Size])

/-- Constants from ds1307.h. -/
def D_DS1307_ADDR : Nat := 0x68

def D_DS1307_REG_SEC : Nat := 0x00

def D_DS1307_REG_CTRL : Nat := 0x07

def D_DS1307_REG_DAY : Nat := 0x03

def D_DS1307_BIT_CH : Nat := 7

def DS1307_MAX_BUFF_SIZE : Nat := 64

def DS1307_TIMEOUT : Nat := 10

/-- The square-wave-output enumeration `DS1307_SQWO_t` values (ds1307.h). -/
def SQWO_1Hz : Nat := 0x10

def SQWO_No_Output_0 : Nat := 0x00

/-- One byte of the `DS1307_Bin_to_BCD` conversion, i.e. the body of its
loop: `data[i] = ((data[i] / 10) << 4) | (data[i] % 10);` with the store
into a `uint8_t` truncating to a byte. -/
def bcdByte (v : Nat) : Nat := (((v / 10) <<< 4) ||| (v % 10)) % 256

/-- Embedding of `DS1307_Bin_to_BCD` (ds1307.c): converts the first `len` elements of the
array in place via `bcdByte`, leaving the rest untouched. -/
def DS1307_Bin_to_BCD : List Nat → Nat → List Nat
  | data, 0 => data
  | [], _ + 1 => []
  | v :: rest, n + 1 => bcdByte v :: DS1307_Bin_to_BCD rest n

/-- Embedding of `DS1307_Init` (ds1307.c): clears the CH bit by writing a zero byte to the
seconds register; if that write reports `DS1307_ERROR`, short-circuits with
`DS1307_NOT_FOUND`; otherwise writes `sqwOut` to the control register, reads
the control register back, and returns the status of that final read.
Returns the status and the ordered trace of the bus transactions performed.
The C code computes `value = 0; value &= ~(1 << D_DS1307_BIT_CH);`, i.e. the
byte written to the seconds register is `0 &&& (0xFF ^^^ (1 <<< 7)) = 0`. -/
def DS1307_Init (bus : Bus) (sqwOut : Nat) : DS1307_Status_t × List BusOp :=
  let value : Nat := 0 &&& ((0xFF : Nat) ^^^ (1 <<< D_DS1307_BIT_CH))
  let w1 := HAL_I2C_Mem_Write bus D_DS1307_ADDR D_DS1307_REG_SEC [value] 1
  if w1.1 = DS1307_ERROR then
    (DS1307_NOT_FOUND, w1.2)
  else
    let w2 := HAL_I2C_Mem_Write bus D_DS1307_ADDR D_DS1307_REG_CTRL [sqwOut] 1
    let r3 := HAL_I2C_Mem_Read bus D_DS1307_ADDR D_DS1307_REG_CTRL 1
    (r3.1, w1.2 ++ w2.2 ++ r3.2.2)

/-- Embedding of `DS1307_ReadReg` (ds1307.c): the local variable `dataLen` is initialized
to `0` and never assigned `readLen`, and it is `dataLen` — not `readLen` —
that is passed to `HAL_I2C_Mem_Read`, so the bus transaction transfers `0`
bytes; the copy loop then copies `readLen` bytes out of the zero-initialized
64-byte staging buffer `value`.  `value` is modelled as the total function
`i ↦ (byte i of the HAL transfer, or 0 beyond it)`; indices `≥ 64` are out
of bounds in C.  Returns the status, the copied bytes, and the trace. -/
def DS1307_ReadReg (bus : Bus) (regAdd : Nat) (readLen : Nat) :
    DS1307_Status_t × List Nat × List BusOp :=
  let dataLen : Nat := 0
  let r := HAL_I2C_Mem_Read bus D_DS1307_ADDR regAdd dataLen
  let value : Nat → Nat := fun i => if i < dataLen then r.2.1.getD i 0 else 0
  let dataRead := (List.range readLen).map value
  (r.1, dataRead, r.2.2)

/-- The staging-buffer indices `DS1307_ReadReg` accesses: the copy loop
`for (i = 0; i < readLen; i++) dataRead[i] = value[i];` reads `value[i]`
for every `i < readLen` (the HAL transfer writes `dataLen = 0` bytes, hence
touches no index). -/
def DS1307_ReadReg_stagingIdx (readLen : Nat) : List Nat := List.range readLen

/-- Embedding of `DS1307_WriteReg` (ds1307.c): `dataLen = writeLen`; if
`dataLen > DS1307_MAX_BUFF_SIZE` it rejects with `DS1307_DATA_SIZE_ERROR`
before any bus transaction; otherwise it copies the `dataLen` input bytes
into the zeroed staging buffer `value` and performs one bus-write
transaction of those bytes at `regAdd`, propagating the transport status. -/
def DS1307_WriteReg (bus : Bus) (regAdd : Nat) (dataWrite : List Nat)
    (writeLen : Nat) : DS1307_Status_t × List BusOp :=
  let dataLen : Nat := writeLen
  if dataLen > DS1307_MAX_BUFF_SIZE then
    (DS1307_DATA_SIZE_ERROR, [])
  else
    let value : Nat → Nat := fun i => if i < dataLen then dataWrite.getD i 0 else 0
    let sent := (List.range dataLen).map value
    let w := HAL_I2C_Mem_Write bus D_DS1307_ADDR regAdd sent dataLen
    (w.1, w.2)

/-- The staging-buffer indices `DS1307_WriteReg` accesses: on the rejected
branch none; otherwise the copy loop writes `value[i]` for `i < dataLen`
and the HAL transfer reads the same indices. -/
def DS1307_WriteReg_stagingIdx (writeLen : Nat) : List Nat :=
  if writeLen > DS1307_MAX_BUFF_SIZE then [] else List.range writeLen

/-- Structure `DS1307_Time_t` (ds1307.h). -/
structure DS1307_Time_t : Type where
  Hour : Nat
  Min : Nat
  Sec : Nat
deriving DecidableEq, Repr

/-- Structure `DS1307_Date_t` (ds1307.h). -/
structure DS1307_Date_t : Type where
  Day : Nat
  Date : Nat
  Month : Nat
  Year : Nat
deriving DecidableEq, Repr

/-- Structure `DS1307_DateTime_t` (ds1307.h). -/
structure DS1307_DateTime_t : Type where
  date : DS1307_Date_t
  time : DS1307_Time_t
deriving DecidableEq, Repr

/-- Embedding of `DS1307_ReadTime_Bin` (ds1307.c): reads 3 bytes starting at the seconds
register via `DS1307_ReadReg` and maps them to `Sec`, `Min`, `Hour` in
register order. -/
def DS1307_ReadTime_Bin (bus : Bus) :
    DS1307_Status_t × DS1307_Time_t × List BusOp :=
  let r := DS1307_ReadReg bus D_DS1307_REG_SEC 3
  (r.1,
   { Sec := r.2.1.getD 0 0, Min := r.2.1.getD 1 0, Hour := r.2.1.getD 2 0 },
   r.2.2)

/-- Embedding of `DS1307_ReadTime_BCD` (ds1307.c): same 3-byte `DS1307_ReadReg` call at
the seconds register, then `DS1307_Bin_to_BCD` over the 3-byte buffer before
mapping to `Sec`, `Min`, `Hour`. -/
def DS1307_ReadTime_BCD (bus : Bus) :
    DS1307_Status_t × DS1307_Time_t × List BusOp :=
  let r := DS1307_ReadReg bus D_DS1307_REG_SEC 3
  let value := DS1307_Bin_to_BCD r.2.1 3
  (r.1,
   { Sec := value.getD 0 0, Min := value.getD 1 0, Hour := value.getD 2 0 },
   r.2.2)

/-- Embedding of `DS1307_ReadDate_Bin` (ds1307.c): reads 4 bytes starting at the day
register via `DS1307_ReadReg`, mapping them to `Day`, `Date`, `Month`,
`Year` in register order. -/
def DS1307_ReadDate_Bin (bus : Bus) :
    DS1307_Status_t × DS1307_Date_t × List BusOp :=
  let r := DS1307_ReadReg bus D_DS1307_REG_DAY 4
  (r.1,
   { Day := r.2.1.getD 0 0, Date := r.2.1.getD 1 0, Month := r.2.1.getD 2 0,
     Year := r.2.1.getD 3 0 },
   r.2.2)

/-- Embedding of `DS1307_ReadDate_BCD` (ds1307.c): same 4-byte read at the day register,
then `DS1307_Bin_to_BCD` over the buffer before mapping to the structure. -/
def DS1307_ReadDate_BCD (bus : Bus) :
    DS1307_Status_t × DS1307_Date_t × List BusOp :=
  let r := DS1307_ReadReg bus D_DS1307_REG_DAY 4
  let value := DS1307_Bin_to_BCD r.2.1 4
  (r.1,
   { Day := value.getD 0 0, Date := value.getD 1 0, Month := value.getD 2 0,
     Year := value.getD 3 0 },
   r.2.2)

/-- Embedding of `DS1307_ReadDateTime_Bin` (ds1307.c): reads the date, then the time,
overwriting the date read's status with the time read's; returns the time
read's status and the concatenated trace. -/
def DS1307_ReadDateTime_Bin (bus : Bus) :
    DS1307_Status_t × DS1307_DateTime_t × List BusOp :=
  let rd := DS1307_ReadDate_Bin bus
  let rt := DS1307_ReadTime_Bin bus
  (rt.1, { date := rd.2.1, time := rt.2.1 }, rd.2.2 ++ rt.2.2)

/-- Embedding of `DS1307_ReadDateTime_BCD` (ds1307.c): BCD variant of the same two-step
sequence, returning the time read's status and the concatenated trace. -/
def DS1307_ReadDateTime_BCD (bus : Bus) :
    DS1307_Status_t × DS1307_DateTime_t × List BusOp :=
  let rd := DS1307_ReadDate_BCD bus
  let rt := DS1307_ReadTime_BCD bus
  (rt.1, { date := rd.2.1, time := rt.2.1 }, rd.2.2 ++ rt.2.2)

/-- A transport whose registers 0, 1, 2 (seconds, minutes, hours) hold the
raw binary bytes 34, 59, 12, and which reports `DS1307_OK` on every
transaction. -/
def busTime345912 : Bus :=
  { mem := fun i => [34, 59, 12].getD i 0,
    readStatus := fun _ _ => DS1307_OK,
    writeStatus := fun _ _ => DS1307_OK }

/-- A transport that succeeds on every transaction. -/
def busOkAll : Bus :=
  { mem := fun _ => 0,
    readStatus := fun _ _ => DS1307_OK,
    writeStatus := fun _ _ => DS1307_OK }

/-- A transport that reports `DS1307_ERROR` on every write. -/
def busErrWrite : Bus :=
  { mem := fun _ => 0,
    readStatus := fun _ _ => DS1307_OK,
    writeStatus := fun _ _ => DS1307_ERROR }

/-- A transport that reports `DS1307_BUSY` on every write and `DS1307_OK` on
every read. -/
def busBusyWrite : Bus :=
  { mem := fun _ => 0,
    readStatus := fun _ _ => DS1307_OK,
    writeStatus := fun _ _ => DS1307_BUSY }

/-- A transport whose read at the day register fails with `DS1307_ERROR`
while every other transaction succeeds. -/
def busErrDateRead : Bus :=
  { mem := fun _ => 0,
    readStatus := fun reg _ => if reg = D_DS1307_REG_DAY then DS1307_ERROR else DS1307_OK,
    writeStatus := fun _ _ => DS1307_OK }

/-- Unfolding lemma for `DS1307_Init`: the byte written by the clock-halt
write is `0`, and the two branches are as in the source. -/
theorem Init_unfold (bus : Bus) (sqwOut : Nat) :
    DS1307_Init bus sqwOut =
      if bus.writeStatus D_DS1307_REG_SEC [0] = DS1307_ERROR then
        (DS1307_NOT_FOUND, [BusOp.memWrite D_DS1307_ADDR D_DS1307_REG_SEC [0]])
      else
        (bus.readStatus D_DS1307_REG_CTRL 1,
         [BusOp.memWrite D_DS1307_ADDR D_DS1307_REG_SEC [0],
          BusOp.memWrite D_DS1307_ADDR D_DS1307_REG_CTRL [sqwOut],
          BusOp.memRead D_DS1307_ADDR D_DS1307_REG_CTRL 1]) := rfl

/-- Unfolding lemma for `DS1307_ReadReg`: the bus transaction requests `0`
bytes, and the copied-out buffer is `readLen` zero bytes. -/
theorem ReadReg_unfold (bus : Bus) (regAdd readLen : Nat) :
    DS1307_ReadReg bus regAdd readLen =
      (bus.readStatus regAdd 0, List.replicate readLen 0,
       [BusOp.memRead D_DS1307_ADDR regAdd 0]) := by
  unfold DS1307_ReadReg HAL_I2C_Mem_Read
  simp [List.eq_replicate_iff]

/-- Reading the first `n` entries of a list through `getD` recovers
`List.take n` when `n` is within bounds. -/
theorem range_map_getD (l : List Nat) :
    ∀ n, n ≤ l.length → (List.range n).map (fun i => l.getD i 0) = l.take n := by
  induction l with
  | nil =>
      intro n hn
      have h0 : n = 0 := Nat.le_zero.mp hn
      subst h0
      simp
  | cons a t ih =>
      intro n hn
      match n with
      | 0 => simp
      | Nat.succ m =>
          rw [List.range_succ_eq_map, List.map_cons, List.map_map,
            List.take_succ_cons]
          have hm : m ≤ t.length := Nat.succ_le_succ_iff.mp (by simpa using hn)
          have hrec := ih m hm
          simp only [Function.comp_def, List.getD_cons_zero, List.getD_cons_succ]
          rw [hrec]

/-- Same as `range_map_getD` with the guard of the copy loop kept. -/
theorem range_map_if_getD (l : List Nat) (n : Nat) (hn : n ≤ l.length) :
    (List.range n).map (fun i => if i < n then l.getD i 0 else 0) = l.take n := by
  have h1 : (List.range n).map (fun i => if i < n then l.getD i 0 else 0)
      = (List.range n).map (fun i => l.getD i 0) := by
    apply List.map_congr_left
    intro i hi
    rw [List.mem_range] at hi
    simp [hi]
  rw [h1, range_map_getD l n hn]

/-- Behaviour of `DS1307_WriteReg` on an accepted length: one bus-write
transaction of the first `writeLen` input bytes at `regAdd`, propagating the
transport status. -/
theorem WriteReg_le_eq (bus : Bus) (regAdd : Nat) (dataWrite : List Nat)
    (writeLen : Nat) (hle : writeLen ≤ DS1307_MAX_BUFF_SIZE)
    (hlen : writeLen ≤ dataWrite.length) :
    DS1307_WriteReg bus regAdd dataWrite writeLen =
      (bus.writeStatus regAdd (dataWrite.take writeLen),
       [BusOp.memWrite D_DS1307_ADDR regAdd (dataWrite.take writeLen)]) := by
  have hred : DS1307_WriteReg bus regAdd dataWrite writeLen =
      if writeLen > DS1307_MAX_BUFF_SIZE then (DS1307_DATA_SIZE_ERROR, [])
      else
        (bus.writeStatus regAdd
          (((List.range writeLen).map
              (fun i => if i < writeLen then dataWrite.getD i 0 else 0)).take writeLen),
         [BusOp.memWrite D_DS1307_ADDR regAdd
            (((List.range writeLen).map
                (fun i => if i < writeLen then dataWrite.getD i 0 else 0)).take writeLen)]) := rfl
  rw [hred, if_neg (Nat.not_lt.mpr hle)]
  rw [List.take_of_length_le (by simp)]
  rw [range_map_if_getD dataWrite writeLen hlen]

/-- Behaviour of `DS1307_WriteReg` on a rejected length: no bus transaction,
`DS1307_DATA_SIZE_ERROR`. -/
theorem WriteReg_gt_eq (bus : Bus) (regAdd : Nat) (dataWrite : List Nat)
    (writeLen : Nat) (hgt : DS1307_MAX_BUFF_SIZE < writeLen) :
    DS1307_WriteReg bus regAdd dataWrite writeLen = (DS1307_DATA_SIZE_ERROR, []) := by
  have hred : DS1307_WriteReg bus regAdd dataWrite writeLen =
      if writeLen > DS1307_MAX_BUFF_SIZE then (DS1307_DATA_SIZE_ERROR, [])
      else
        (bus.writeStatus regAdd
          (((List.range writeLen).map
              (fun i => if i < writeLen then dataWrite.getD i 0 else 0)).take writeLen),
         [BusOp.memWrite D_DS1307_ADDR regAdd
            (((List.range writeLen).map
                (fun i => if i < writeLen then dataWrite.getD i 0 else 0)).take writeLen)]) := rfl
  rw [hred, if_pos hgt]

/-- Unfolded form of `DS1307_Bin_to_BCD`: `bcdByte` mapped over the first
`len` elements, the remainder untouched. -/
theorem Bin_to_BCD_eq_map :
    ∀ (data : List Nat) (len : Nat), len ≤ data.length →
      DS1307_Bin_to_BCD data len = (data.take len).map bcdByte ++ data.drop len
  | data, 0, _ => by simp [DS1307_Bin_to_BCD]
  | [], n + 1, h => by simp at h
  | v :: rest, n + 1, h => by
      simp only [DS1307_Bin_to_BCD, List.take_succ_cons, List.map_cons,
        List.drop_succ_cons, List.cons_append, List.cons.injEq, true_and]
      exact Bin_to_BCD_eq_map rest n (by simpa using h)

/-- C1 (code bug): on a transport whose seconds/minutes/hours registers hold
34, 59, 12, `DS1307_ReadReg` at the seconds register with length 3 performs
a bus-read transaction of 0 bytes (the local `dataLen` is initialized to 0
and passed to the HAL instead of `readLen`) and copies 3 zero bytes — not
the 3 register bytes — into the caller's buffer, contradicting the claim
(and the function's own documentation) that the transaction transfers
`length` bytes. -/
theorem C1_ReadReg_zero_length_transfer :
    DS1307_ReadReg busTime345912 D_DS1307_REG_SEC 3 =
      (DS1307_OK, [0, 0, 0], [BusOp.memRead D_DS1307_ADDR D_DS1307_REG_SEC 0]) ∧
    busTime345912.mem 0 = 34 ∧ busTime345912.mem 1 = 59 ∧
    busTime345912.mem 2 = 12 :=
  ⟨rfl, rfl, rfl, rfl⟩

/-- C2: for every byte `v ≤ 99` the conversion byte is
`(v / 10) * 16 + v % 10` (tens digit in the high nibble, units in the low);
in particular 45 ↦ 0x45, 0 ↦ 0x00, 59 ↦ 0x59; and `DS1307_Bin_to_BCD` is
the pure map of that conversion over the first `len` array elements,
leaving the remaining elements unchanged. -/
theorem C2_Bin_to_BCD_spec (v : Nat) (hv : v ≤ 99) (data : List Nat)
    (len : Nat) (hlen : len ≤ data.length) :
    bcdByte v = (v / 10) * 16 + v % 10 ∧
    bcdByte 45 = 0x45 ∧ bcdByte 0 = 0x00 ∧ bcdByte 59 = 0x59 ∧
    DS1307_Bin_to_BCD data len = (data.take len).map bcdByte ++ data.drop len := by
  refine ⟨?_, by decide, by decide, by decide, Bin_to_BCD_eq_map data len hlen⟩
  unfold bcdByte
  interval_cases v <;> rfl

/-- Witness for C2 at `v = 45`, `data = [0, 59]`, `len = 2`. -/
theorem C2_Bin_to_BCD_spec_witness :
    bcdByte 45 = (45 / 10) * 16 + 45 % 10 ∧
    bcdByte 45 = 0x45 ∧ bcdByte 0 = 0x00 ∧ bcdByte 59 = 0x59 ∧
    DS1307_Bin_to_BCD [0, 59] 2 = ([0, 59].take 2).map bcdByte ++ [0, 59].drop 2 :=
  C2_Bin_to_BCD_spec 45 (by decide) [0, 59] 2 (by decide)

/-- C3: `DS1307_WriteReg` with a length above `DS1307_MAX_BUFF_SIZE = 64`
returns `DS1307_DATA_SIZE_ERROR` with an empty transaction trace; with a
length `≤ 64` it performs exactly one bus-write transaction of the
`writeLen` input bytes at `regAdd` and propagates the transport status
unchanged. -/
theorem C3_WriteReg_spec (bus : Bus) (regAdd : Nat) (dataWrite : List Nat)
    (writeLen : Nat) (hlen : writeLen ≤ dataWrite.length) :
    (DS1307_MAX_BUFF_SIZE < writeLen →
      DS1307_WriteReg bus regAdd dataWrite writeLen = (DS1307_DATA_SIZE_ERROR, [])) ∧
    (writeLen ≤ DS1307_MAX_BUFF_SIZE →
      DS1307_WriteReg bus regAdd dataWrite writeLen =
        (bus.writeStatus regAdd (dataWrite.take writeLen),
         [BusOp.memWrite D_DS1307_ADDR regAdd (dataWrite.take writeLen)])) :=
  ⟨fun hgt => WriteReg_gt_eq bus regAdd dataWrite writeLen hgt,
   fun hle => WriteReg_le_eq bus regAdd dataWrite writeLen hle hlen⟩

/-- Witness for C3 at `regAdd = 0x08`, `dataWrite = [1, 2, 3]`,
`writeLen = 2`, on a transport reporting `DS1307_BUSY`. -/
theorem C3_WriteReg_spec_witness :
    DS1307_WriteReg busBusyWrite 0x08 [1, 2, 3] 2 =
      (DS1307_BUSY, [BusOp.memWrite D_DS1307_ADDR 0x08 [1, 2]]) :=
  (C3_WriteReg_spec busBusyWrite 0x08 [1, 2, 3] 2 (by decide)).2 (by decide)

/-- C4: if the transport answers the clock-halt write (a zero byte to the
seconds register) with `DS1307_ERROR`, `DS1307_Init` returns
`DS1307_NOT_FOUND` and its transaction trace is exactly that single write --
no further bus operation is attempted. -/
theorem C4_Init_error_short_circuit (bus : Bus) (sqwOut : Nat)
    (h : bus.writeStatus D_DS1307_REG_SEC [0] = DS1307_ERROR) :
    DS1307_Init bus sqwOut =
      (DS1307_NOT_FOUND, [BusOp.memWrite D_DS1307_ADDR D_DS1307_REG_SEC [0]]) := by
  rw [Init_unfold, if_pos h]

/-- Witness for C4 on a transport failing every write with `DS1307_ERROR`. -/
theorem C4_Init_error_short_circuit_witness :
    DS1307_Init busErrWrite SQWO_1Hz =
      (DS1307_NOT_FOUND, [BusOp.memWrite D_DS1307_ADDR D_DS1307_REG_SEC [0]]) :=
  C4_Init_error_short_circuit busErrWrite SQWO_1Hz rfl

/-- C5: on a transport that succeeds on all three calls, `DS1307_Init`
performs exactly the three bus operations write seconds := 0x00, write
control := sqwOut, read control (1 byte), in that order, and returns the
status of the final control-register read. -/
theorem C5_Init_success_three_ops (bus : Bus) (sqwOut : Nat)
    (h1 : bus.writeStatus D_DS1307_REG_SEC [0] = DS1307_OK)
    (h2 : bus.writeStatus D_DS1307_REG_CTRL [sqwOut] = DS1307_OK)
    (h3 : bus.readStatus D_DS1307_REG_CTRL 1 = DS1307_OK) :
    DS1307_Init bus sqwOut =
      (bus.readStatus D_DS1307_REG_CTRL 1,
       [BusOp.memWrite D_DS1307_ADDR D_DS1307_REG_SEC [0],
        BusOp.memWrite D_DS1307_ADDR D_DS1307_REG_CTRL [sqwOut],
        BusOp.memRead D_DS1307_ADDR D_DS1307_REG_CTRL 1]) := by
  rw [Init_unfold, if_neg (by simp [h1])]

/-- Witness for C5 on a transport succeeding on every transaction. -/
theorem C5_Init_success_three_ops_witness :
    DS1307_Init busOkAll SQWO_1Hz =
      (busOkAll.readStatus D_DS1307_REG_CTRL 1,
       [BusOp.memWrite D_DS1307_ADDR D_DS1307_REG_SEC [0],
        BusOp.memWrite D_DS1307_ADDR D_DS1307_REG_CTRL [SQWO_1Hz],
        BusOp.memRead D_DS1307_ADDR D_DS1307_REG_CTRL 1]) :=
  C5_Init_success_three_ops busOkAll SQWO_1Hz rfl rfl rfl

/-- C6 (code bug): on a transport whose seconds/minutes/hours registers hold
the raw binary bytes 34, 59, 12, `DS1307_ReadTime_Bin` yields the time
structure with all fields 0 — not 34/59/12 — because the underlying
`DS1307_ReadReg` issues a 0-byte bus read (its `dataLen` bug) and copies
zeros out of its staging buffer. -/
theorem C6_ReadTime_Bin_zeros :
    DS1307_ReadTime_Bin busTime345912 =
      (DS1307_OK, { Hour := 0, Min := 0, Sec := 0 },
       [BusOp.memRead D_DS1307_ADDR D_DS1307_REG_SEC 0]) ∧
    busTime345912.mem 0 = 34 ∧ busTime345912.mem 1 = 59 ∧
    busTime345912.mem 2 = 12 :=
  ⟨rfl, rfl, rfl, rfl⟩

/-- C7: for every bus state, `DS1307_ReadTime_BCD` performs exactly the same
read (the `DS1307_ReadReg` call at the seconds register with length 3) as
`DS1307_ReadTime_Bin`, returns the same status, and each of its fields is
`bcdByte` of the corresponding `DS1307_ReadTime_Bin` field. -/
theorem C7_ReadTime_BCD_relates (bus : Bus) :
    (DS1307_ReadTime_BCD bus).2.2 = (DS1307_ReadReg bus D_DS1307_REG_SEC 3).2.2 ∧
    (DS1307_ReadTime_Bin bus).2.2 = (DS1307_ReadReg bus D_DS1307_REG_SEC 3).2.2 ∧
    (DS1307_ReadTime_BCD bus).1 = (DS1307_ReadTime_Bin bus).1 ∧
    (DS1307_ReadTime_BCD bus).2.1.Sec = bcdByte (DS1307_ReadTime_Bin bus).2.1.Sec ∧
    (DS1307_ReadTime_BCD bus).2.1.Min = bcdByte (DS1307_ReadTime_Bin bus).2.1.Min ∧
    (DS1307_ReadTime_BCD bus).2.1.Hour = bcdByte (DS1307_ReadTime_Bin bus).2.1.Hour :=
  ⟨rfl, rfl, rfl, rfl, rfl, rfl⟩

/-- C8: both `DS1307_ReadDateTime` variants issue the date read first and
the time read second (trace concatenation in that order), return the time
read's status, and that status is unaffected by the date read: two
transports agreeing on the time-read response yield the same returned
status even when their date-read statuses differ. -/
theorem C8_ReadDateTime_order_status (bus busB : Bus)
    (hsame : bus.readStatus D_DS1307_REG_SEC 0 = busB.readStatus D_DS1307_REG_SEC 0) :
    (DS1307_ReadDateTime_Bin bus).2.2 =
      (DS1307_ReadDate_Bin bus).2.2 ++ (DS1307_ReadTime_Bin bus).2.2 ∧
    (DS1307_ReadDateTime_Bin bus).1 = (DS1307_ReadTime_Bin bus).1 ∧
    (DS1307_ReadDateTime_BCD bus).2.2 =
      (DS1307_ReadDate_BCD bus).2.2 ++ (DS1307_ReadTime_BCD bus).2.2 ∧
    (DS1307_ReadDateTime_BCD bus).1 = (DS1307_ReadTime_BCD bus).1 ∧
    (DS1307_ReadDateTime_Bin bus).1 = (DS1307_ReadDateTime_Bin busB).1 ∧
    (DS1307_ReadDateTime_BCD bus).1 = (DS1307_ReadDateTime_BCD busB).1 :=
  ⟨rfl, rfl, rfl, rfl, hsame, hsame⟩

/-- Witness for C8: a transport whose date read fails with `DS1307_ERROR`
returns the same (successful) status as a fully succeeding transport. -/
theorem C8_ReadDateTime_order_status_witness :
    (DS1307_ReadDateTime_Bin busErrDateRead).2.2 =
      (DS1307_ReadDate_Bin busErrDateRead).2.2 ++ (DS1307_ReadTime_Bin busErrDateRead).2.2 ∧
    (DS1307_ReadDateTime_Bin busErrDateRead).1 = (DS1307_ReadTime_Bin busErrDateRead).1 ∧
    (DS1307_ReadDateTime_BCD busErrDateRead).2.2 =
      (DS1307_ReadDate_BCD busErrDateRead).2.2 ++ (DS1307_ReadTime_BCD busErrDateRead).2.2 ∧
    (DS1307_ReadDateTime_BCD busErrDateRead).1 = (DS1307_ReadTime_BCD busErrDateRead).1 ∧
    (DS1307_ReadDateTime_Bin busErrDateRead).1 = (DS1307_ReadDateTime_Bin busOkAll).1 ∧
    (DS1307_ReadDateTime_BCD busErrDateRead).1 = (DS1307_ReadDateTime_BCD busOkAll).1 :=
  C8_ReadDateTime_order_status busErrDateRead busOkAll rfl

/-- C9 counterexample: the claim's window part fails as stated.  With
`writeLen = 2 ≤ 64` but `regAdd = 63`, the single bus-write transaction
performed by `DS1307_WriteReg` addresses register `64`, outside the
64-register window `0 .. 63`. -/
theorem C9_window_counterexample :
    2 ≤ DS1307_MAX_BUFF_SIZE ∧
    ¬ (∀ op ∈ (DS1307_WriteReg busOkAll 63 [1, 2] 2).2,
        ∀ r ∈ op.regsTouched, r < DS1307_MAX_BUFF_SIZE) := by
  decide

/-- C9 amended: under `readLen ≤ 64` and `writeLen ≤ 64` every staging
buffer access of `DS1307_ReadReg` and `DS1307_WriteReg` is in bounds and
the data-size error branch of `DS1307_WriteReg` is unreachable (it performs
its single transaction and propagates the transport status); the write
transaction addresses at most `writeLen` consecutive registers and stays
within the 64-register window provided additionally
`regAdd + writeLen ≤ 64`; the read transaction transfers 0 bytes and
touches no register at all. -/
theorem C9_bounds_amended (bus : Bus) (regAdd readLen writeLen : Nat)
    (dataWrite : List Nat) (hr : readLen ≤ DS1307_MAX_BUFF_SIZE)
    (hw : writeLen ≤ DS1307_MAX_BUFF_SIZE) (hlen : writeLen ≤ dataWrite.length) :
    (∀ i ∈ DS1307_ReadReg_stagingIdx readLen, i < DS1307_MAX_BUFF_SIZE) ∧
    (∀ i ∈ DS1307_WriteReg_stagingIdx writeLen, i < DS1307_MAX_BUFF_SIZE) ∧
    DS1307_WriteReg bus regAdd dataWrite writeLen =
      (bus.writeStatus regAdd (dataWrite.take writeLen),
       [BusOp.memWrite D_DS1307_ADDR regAdd (dataWrite.take writeLen)]) ∧
    (regAdd + writeLen ≤ DS1307_MAX_BUFF_SIZE →
      ∀ op ∈ (DS1307_WriteReg bus regAdd dataWrite writeLen).2,
        ∀ r ∈ op.regsTouched, r < DS1307_MAX_BUFF_SIZE) ∧
    (∀ op ∈ (DS1307_ReadReg bus regAdd readLen).2.2,
      ∀ r ∈ op.regsTouched, r < DS1307_MAX_BUFF_SIZE) := by
  have heq := WriteReg_le_eq bus regAdd dataWrite writeLen hw hlen
  refine ⟨?_, ?_, heq, ?_, ?_⟩
  · intro i hi
    rw [DS1307_ReadReg_stagingIdx, List.mem_range] at hi
    exact lt_of_lt_of_le hi hr
  · intro i hi
    rw [DS1307_WriteReg_stagingIdx, if_neg (Nat.not_lt.mpr hw), List.mem_range] at hi
    exact lt_of_lt_of_le hi hw
  · intro hwin op hop r hr2
    rw [heq] at hop
    rw [List.mem_singleton] at hop
    subst hop
    rw [BusOp.regsTouched] at hr2
    rw [List.mem_map] at hr2
    obtain ⟨i, hi, hri⟩ := hr2
    rw [List.mem_range, List.length_take] at hi
    subst hri
    have hiw : i < writeLen := lt_of_lt_of_le hi (min_le_left _ _)
    exact lt_of_lt_of_le (Nat.add_lt_add_left hiw regAdd) hwin
  · intro op hop r hr2
    rw [ReadReg_unfold, List.mem_singleton] at hop
    subst hop
    rw [BusOp.regsTouched] at hr2
    simp at hr2

/-- Witness for C9 amended at `regAdd = 8`, `readLen = 4`, `writeLen = 2`,
`dataWrite = [7, 8, 9]`, extracting the quantifier-free conjunct. -/
theorem C9_bounds_amended_witness :
    DS1307_WriteReg busOkAll 8 [7, 8, 9] 2 =
      (DS1307_OK, [BusOp.memWrite D_DS1307_ADDR 8 [7, 8]]) :=
  (C9_bounds_amended busOkAll 8 4 2 [7, 8, 9] (by decide) (by decide)
    (by decide)).2.2.1

/-- C10: any first-write status other than `DS1307_ERROR` (e.g.
`DS1307_BUSY` or `DS1307_TIMEOUT_ERR`) does not trigger the
device-not-found short-circuit: `DS1307_Init` continues with the control
write and the control read, and the returned status is that of the final
read, overwriting the failing write status — so `DS1307_Init` can return
`DS1307_OK` although the clock-halt write did not succeed. -/
theorem C10_Init_non_error_continues (bus : Bus) (sqwOut : Nat)
    (h : bus.writeStatus D_DS1307_REG_SEC [0] ≠ DS1307_ERROR) :
    DS1307_Init bus sqwOut =
      (bus.readStatus D_DS1307_REG_CTRL 1,
       [BusOp.memWrite D_DS1307_ADDR D_DS1307_REG_SEC [0],
        BusOp.memWrite D_DS1307_ADDR D_DS1307_REG_CTRL [sqwOut],
        BusOp.memRead D_DS1307_ADDR D_DS1307_REG_CTRL 1]) := by
  rw [Init_unfold, if_neg h]

/-- Witness for C10: a transport answering every write with `DS1307_BUSY`
and every read with `DS1307_OK` makes `DS1307_Init` return `DS1307_OK`. -/
theorem C10_Init_non_error_continues_witness :
    busBusyWrite.writeStatus D_DS1307_REG_SEC [0] = DS1307_BUSY ∧
    DS1307_Init busBusyWrite SQWO_1Hz =
      (DS1307_OK,
       [BusOp.memWrite D_DS1307_ADDR D_DS1307_REG_SEC [0],
        BusOp.memWrite D_DS1307_ADDR D_DS1307_REG_CTRL [SQWO_1Hz],
        BusOp.memRead D_DS1307_ADDR D_DS1307_REG_CTRL 1]) :=
  ⟨rfl, C10_Init_non_error_continues busBusyWrite SQWO_1Hz (by decide)⟩
